import Mathlib

/-!
# Process system-call shims of `bsd-user/bsd-proc.h`

A shallow embedding of the adapters `do_bsd_exit`, `do_bsd_getgroups`,
`do_bsd_setgroups`, `do_bsd_setlogin`, `do_bsd_getlogin`, `do_bsd_getrusage`,
`do_bsd_getrlimit` and `do_bsd_setrlimit`.

* `abi_long` / `abi_ulong` / `int` values are mathematical integers (`Int`); the
  arithmetic of the adapters (`gidsetsize * 2`, `i++`) is taken without wrap-around, and
  the exit code of `do_bsd_exit` is converted to `int` where it is passed on.
* Guest memory is a map from guest byte address to byte; the whole observable state is a
  `World`: guest memory plus the trace of effects (host calls, lock / unlock, accesses
  through a locked pointer), oldest event first.
* Everything the header only uses (host system calls, `lock_user`, `tswap32`, the
  resource-limit converters, the configured limits) is either a field of `Env`
  or a definition marked as modelled from the specification.
-/

namespace BsdProc

/-! ## Constants of headers that are not part of the file -/

/-- Modelled from the spec: the guest's permission-denied error number (`TARGET_EPERM`,
declared in the errno header of the emulator; FreeBSD numbering). -/
def TARGET_EPERM : Int := 1

/-- Modelled from the spec: the guest's bad-address error number (`TARGET_EFAULT`,
declared in the errno header of the emulator; FreeBSD numbering). -/
def TARGET_EFAULT : Int := 14

/-- Modelled from the spec: the data-segment resource kind of `<sys/resource.h>`. -/
def RLIMIT_DATA : Int := 2

/-- Modelled from the spec: the stack-size resource kind of `<sys/resource.h>`. -/
def RLIMIT_STACK : Int := 3

/-- Access mode of a locked buffer (`VERIFY_READ` / `VERIFY_WRITE`). -/
inductive AccessMode where
  | read
  | write
  deriving DecidableEq

/-- Read access to a guest range. -/
def VERIFY_READ : AccessMode := AccessMode.read

/-- Write access to a guest range. -/
def VERIFY_WRITE : AccessMode := AccessMode.write

/-- Size in bytes of one element of `uint32_t *target_grouplist`. -/
def sizeof_uint32 : Int := 4

/-- Size in bytes of `struct target_rlimit` (two 64-bit fields, `rlim_cur` at offset 0
and `rlim_max` at offset 8; the declaration is in the syscall definitions header). -/
def sizeof_target_rlimit : Int := 16

/-! ## Observable effects -/

/-- One observable effect of an adapter. -/
inductive Event where
  | _mcleanup
  | gdb_exit (code : Int)
  | qemu_plugin_user_exit
  | _exit (code : Int)
  | lock (type : AccessMode) (guest_addr len : Int) (copy : Bool) (host_ptr : Option Int)
  | unlock (host_ptr guest_addr len : Int)
  | load (host_ptr off : Int) (size : Int)
  | store (host_ptr off : Int) (size : Int)
  | getgroups (gidsetsize : Int)
  | setgroups (gidsetsize : Int) (grouplist : List Nat)
  | setlogin (host_ptr : Int)
  | _getlogin (host_ptr len : Int)
  | getrusage (who : Int)
  | getrlimit (resource : Int)
  | setrlimit (resource : Int) (rlim_cur rlim_max : Int)
  deriving DecidableEq

/-- The event is a call of one of the host operations wrapped by the adapters. -/
def Event.is_host : Event → Bool
  | Event.getgroups _ => true
  | Event.setgroups _ _ => true
  | Event.setlogin _ => true
  | Event._getlogin _ _ => true
  | Event.getrusage _ => true
  | Event.getrlimit _ => true
  | Event.setrlimit _ _ _ => true
  | _ => false

/-- Guest memory (one byte per guest address) and the trace of effects so far. -/
structure World where
  mem : Int → Nat
  trace : List Event

/-- Append one event to the trace. -/
def emit (w : World) (e : Event) : World := World.mk w.mem (w.trace ++ [e])

/-- The events added to the trace between `w` and a later world `w1`. -/
def new_events (w w1 : World) : List Event := w1.trace.drop w.trace.length

/-- The host operations invoked between `w` and a later world `w1`. -/
def host_calls_since (w w1 : World) : List Event := (new_events w w1).filter Event.is_host

/-- Raw outcome of a host system call: the C return value and `errno`. -/
structure HostRet where
  ret : Int
  errno : Int

/-- Host-layout `struct rlimit`. -/
structure Rlimit where
  rlim_cur : Int
  rlim_max : Int

/-- Everything the adapters take from outside the header: build configuration, the
guest-address validity oracle, the converters declared elsewhere and the behaviour of the
host operating system. -/
structure Env where
  /-- whether `TARGET_GPROF` is defined -/
  target_gprof : Bool
  /-- whether guest and host byte order differ (then `tswap32` swaps) -/
  bswap_needed : Bool
  /-- byte order of the host, which is the order of plain C stores through a pointer -/
  host_big_endian : Bool
  /-- whether the guest range `[addr, addr + len)` may be accessed in the given mode -/
  access_ok : AccessMode → Int → Int → Bool
  /-- host address of a guest address (`g2h`) -/
  g2h : Int → Int
  /-- length of the guest string at an address, negative when it is not readable -/
  target_strlen : (Int → Nat) → Int → Int
  host_to_target_errno : Int → Int
  target_to_host_resource : Int → Int
  host_to_target_rlim : Int → Nat
  target_to_host_rlim : Nat → Int
  /-- configured guest limits, as the `rlim_t` values the assignments produce -/
  target_dflssiz : Int
  target_maxssiz : Int
  target_dfldsiz : Int
  target_maxdsiz : Int
  /-- size of the guest-layout usage record and its bytes for a host record -/
  sizeof_target_rusage : Int
  h2t_rusage : List Int → List Nat
  /-- host operations: arguments to raw outcome (and output data) -/
  sys_getgroups : Int → HostRet × List Nat
  sys_setgroups : Int → List Nat → HostRet
  sys_setlogin : (Int → Nat) → Int → HostRet
  sys_getlogin : Int → HostRet × List Nat
  sys_getrusage : Int → HostRet × List Int
  sys_getrlimit : Int → HostRet × Rlimit
  sys_setrlimit : Int → Rlimit → HostRet

/-! ## Result/Error mapper -/

/-- Modelled from the spec: `get_errno` (Result/Error Mapper, section 4.4). A failed host
call (`-1`) becomes the negated guest code of the host's error indicator, a successful
one passes its payload unchanged. -/
def get_errno (env : Env) (r : HostRet) : Int :=
  if r.ret = -1 then -(env.host_to_target_errno r.errno) else r.ret

/-- Modelled from the spec: `is_error` (Result Code, section 3): negative result codes
encode an error, values `≥ 0` are success. -/
def is_error (ret : Int) : Bool := decide (ret < 0)

/-! ## Byte order -/

/-- Reverse the four bytes of a 32-bit value. -/
def bswap32 (x : Nat) : Nat :=
  ((x % 256 * 256 + x / 256 % 256) * 256 + x / 256 / 256 % 256) * 256
    + x / 256 / 256 / 256 % 256

/-- Modelled from the spec: `tswap32` (Layout Converter, section 4.2), the byte-order swap
between guest and host representation of a 32-bit value: a byte reversal when the two
byte orders differ and the identity otherwise. -/
def tswap32 (env : Env) (x : Nat) : Nat := if env.bswap_needed then bswap32 x else x

/-! ## Guest memory: plain C loads and stores in host byte order -/

/-- Store the 32-bit value `v` at guest address `addr`. -/
def stl_p (be : Bool) (mem : Int → Nat) (addr : Int) (v : Nat) : Int → Nat :=
  fun a =>
    if a = addr then (if be then v / 256 / 256 / 256 % 256 else v % 256)
    else if a = addr + 1 then (if be then v / 256 / 256 % 256 else v / 256 % 256)
    else if a = addr + 2 then (if be then v / 256 % 256 else v / 256 / 256 % 256)
    else if a = addr + 3 then (if be then v % 256 else v / 256 / 256 / 256 % 256)
    else mem a

/-- Load the 32-bit value at guest address `addr`. -/
def ldl_p (be : Bool) (mem : Int → Nat) (addr : Int) : Nat :=
  if be then
    ((mem addr % 256 * 256 + mem (addr + 1) % 256) * 256 + mem (addr + 2) % 256) * 256
      + mem (addr + 3) % 256
  else
    ((mem (addr + 3) % 256 * 256 + mem (addr + 2) % 256) * 256 + mem (addr + 1) % 256) * 256
      + mem addr % 256

/-- Store the 64-bit value `v` at guest address `addr`: two 32-bit halves. -/
def stq_p (be : Bool) (mem : Int → Nat) (addr : Int) (v : Nat) : Int → Nat :=
  if be then stl_p be (stl_p be mem addr (v / 4294967296)) (addr + 4) v
  else stl_p be (stl_p be mem addr v) (addr + 4) (v / 4294967296)

/-- Load the 64-bit value at guest address `addr`. -/
def ldq_p (be : Bool) (mem : Int → Nat) (addr : Int) : Nat :=
  if be then ldl_p be mem addr * 4294967296 + ldl_p be mem (addr + 4)
  else ldl_p be mem (addr + 4) * 4294967296 + ldl_p be mem addr

/-- Store a sequence of bytes at consecutive guest addresses from `addr`. -/
def store_bytes (mem : Int → Nat) (addr : Int) : List Nat → Int → Nat
  | [] => mem
  | b :: bs => store_bytes (fun a => if a = addr then b % 256 else mem a) (addr + 1) bs

/-! ## Guest Memory Accessor -/

/-- A locked buffer: the host pointer handed to the adapter and the guest address it is a
view of. -/
structure LockedBuf where
  host_ptr : Int
  guest_addr : Int
  deriving DecidableEq

/-- Modelled from the spec: `lock_user` (Guest Memory Accessor, section 4.1,
`acquire(address, length, mode)`). The range is validated; on success the adapter gets a
host-addressable view over the guest range, on a fault it gets `NULL` (`none`). -/
def lock_user (env : Env) (w : World) (type : AccessMode) (guest_addr len : Int)
    (copy : Bool) : Option LockedBuf × World :=
  if env.access_ok type guest_addr len then
    (some (LockedBuf.mk (env.g2h guest_addr) guest_addr),
      emit w (Event.lock type guest_addr len copy (some (env.g2h guest_addr))))
  else
    (none, emit w (Event.lock type guest_addr len copy none))

/-- Modelled from the spec: `unlock_user` (section 4.1, `release(buffer, dirty_length)`).
The buffer is a view of guest memory, so the bytes written through it are already in
guest memory; the release itself is recorded with the pointer, guest address and dirty
length it is given. -/
def unlock_user (w : World) (p : LockedBuf) (guest_addr len : Int) : World :=
  emit w (Event.unlock p.host_ptr guest_addr len)

/-- Modelled from the spec: `lock_user_string` (set-login-name row of section 4.3): the
guest string is measured and, when readable, locked for reading with its terminator. -/
def lock_user_string (env : Env) (w : World) (guest_addr : Int) : Option LockedBuf × World :=
  if env.target_strlen w.mem guest_addr < 0 then (none, w)
  else lock_user env w VERIFY_READ guest_addr (env.target_strlen w.mem guest_addr + 1) true

/-- Modelled from the spec: `lock_user_struct`, the accessor applied to a whole record:
`lock_user(type, guest_addr, sizeof(*host_ptr), copy)`. -/
def lock_user_struct (env : Env) (w : World) (type : AccessMode) (guest_addr size : Int)
    (copy : Bool) : Option LockedBuf × World :=
  lock_user env w type guest_addr size copy

/-- Modelled from the spec: `unlock_user_struct`:
`unlock_user(host_ptr, guest_addr, copy ? sizeof(*host_ptr) : 0)`. -/
def unlock_user_struct (w : World) (p : LockedBuf) (guest_addr size : Int) (copy : Bool) :
    World :=
  unlock_user w p guest_addr (if copy then size else 0)

/-- The C expression `p[i]` or `p->field` read as a 32-bit value at byte offset `off`. -/
def view_ldl (env : Env) (w : World) (p : LockedBuf) (off : Int) : Nat × World :=
  (ldl_p env.host_big_endian w.mem (p.guest_addr + off), emit w (Event.load p.host_ptr off 4))

/-- The C assignment to a 32-bit object at byte offset `off` of a locked pointer. -/
def view_stl (env : Env) (w : World) (p : LockedBuf) (off : Int) (v : Nat) : World :=
  World.mk (stl_p env.host_big_endian w.mem (p.guest_addr + off) v)
    (w.trace ++ [Event.store p.host_ptr off 4])

/-- The C expression reading a 64-bit field at byte offset `off` of a locked pointer. -/
def view_ldq (env : Env) (w : World) (p : LockedBuf) (off : Int) : Nat × World :=
  (ldq_p env.host_big_endian w.mem (p.guest_addr + off), emit w (Event.load p.host_ptr off 8))

/-- The C assignment to a 64-bit field at byte offset `off` of a locked pointer. -/
def view_stq (env : Env) (w : World) (p : LockedBuf) (off : Int) (v : Nat) : World :=
  World.mk (stq_p env.host_big_endian w.mem (p.guest_addr + off) v)
    (w.trace ++ [Event.store p.host_ptr off 8])

/-- The host allocation `g_try_new(gid_t, n)`: a fresh array of `n` ids (no element for a
count that is zero or negative); its unspecified initial contents are taken as zeros. -/
def g_try_new (n : Int) : List Nat := List.replicate n.toNat 0

/-! ## The adapters -/

/-- The C conversion of an `abi_long` argument to the `int` parameter of the callee
(`gdb_exit(int)`, `_exit(int)`): the value is reduced to 32 bits, two's complement. -/
def abi_long_to_int (x : Int) : Int := (x + 2147483648) % 4294967296 - 2147483648

/-- The adapter `do_bsd_exit`, exit(2). `arg1` is an `abi_long` and is converted to `int`
at the calls of `gdb_exit` and `_exit`. The host `_exit` does not return, so the
`return 0` after it is never reached: the adapter yields no result (`none`). -/
def do_bsd_exit (env : Env) (w : World) (arg1 : Int) : Option Int × World :=
  let w0 := if env.target_gprof then emit w Event._mcleanup else w
  let w1 := emit w0 (Event.gdb_exit (abi_long_to_int arg1))
  let w2 := emit w1 Event.qemu_plugin_user_exit
  let w3 := emit w2 (Event._exit (abi_long_to_int arg1))
  (none, w3)

/-- The loop `for (i = 0; i < ret; i++) target_grouplist[i] = tswap32(grouplist[i]);` of
`do_bsd_getgroups`: `n` iterations remain and the next index is `i`. -/
def getgroups_loop (env : Env) (grouplist : List Nat) (target_grouplist : LockedBuf) :
    Nat → Nat → World → World
  | 0, _, w => w
  | n + 1, i, w =>
    getgroups_loop env grouplist target_grouplist n (i + 1)
      (view_stl env w target_grouplist (sizeof_uint32 * i) (tswap32 env (grouplist.getD i 0)))

/-- The adapter `do_bsd_getgroups`, getgroups(2). The host call is
`getgroups(gidsetsize, grouplist)` on the array `g_try_new(gid_t, gidsetsize)`; the
environment gives its raw outcome together with the array as the host filled it. -/
def do_bsd_getgroups (env : Env) (w : World) (gidsetsize arg2 : Int) : Int × World :=
  let host := env.sys_getgroups gidsetsize
  let grouplist := host.2
  let w1 := emit w (Event.getgroups gidsetsize)
  let ret := get_errno env host.1
  if gidsetsize ≠ 0 then
    if !is_error ret then
      match lock_user env w1 VERIFY_WRITE arg2 (gidsetsize * 2) false with
      | (none, w2) => (-TARGET_EFAULT, w2)
      | (some target_grouplist, w2) =>
        let w3 := getgroups_loop env grouplist target_grouplist ret.toNat 0 w2
        (ret, unlock_user w3 target_grouplist arg2 (gidsetsize * 2))
    else (ret, w1)
  else (ret, w1)

/-- The loop `for (i = 0; i < gidsetsize; i++) grouplist[i] = tswap32(target_grouplist[i]);`
of `do_bsd_setgroups`: `n` iterations remain and the next index is `i`. -/
def setgroups_loop (env : Env) (target_grouplist : LockedBuf) :
    Nat → Nat → List Nat × World → List Nat × World
  | 0, _, s => s
  | n + 1, i, s =>
    setgroups_loop env target_grouplist n (i + 1)
      (s.1.set i (tswap32 env (view_ldl env s.2 target_grouplist (sizeof_uint32 * i)).1),
        (view_ldl env s.2 target_grouplist (sizeof_uint32 * i)).2)

/-- The adapter `do_bsd_setgroups`, setgroups(2). -/
def do_bsd_setgroups (env : Env) (w : World) (gidsetsize arg2 : Int) : Int × World :=
  let grouplist := g_try_new gidsetsize
  match lock_user env w VERIFY_READ arg2 (gidsetsize * 2) true with
  | (none, w1) => (-TARGET_EFAULT, w1)
  | (some target_grouplist, w1) =>
    let s := setgroups_loop env target_grouplist gidsetsize.toNat 0 (grouplist, w1)
    let w2 := unlock_user s.2 target_grouplist arg2 0
    (get_errno env (env.sys_setgroups gidsetsize s.1), emit w2 (Event.setgroups gidsetsize s.1))

/-- The adapter `do_bsd_setlogin`, setlogin(2). -/
def do_bsd_setlogin (env : Env) (w : World) (arg1 : Int) : Int × World :=
  match lock_user_string env w arg1 with
  | (none, w1) => (-TARGET_EFAULT, w1)
  | (some p, w1) =>
    let ret := get_errno env (env.sys_setlogin w1.mem p.guest_addr)
    let w2 := emit w1 (Event.setlogin p.host_ptr)
    (ret, unlock_user w2 p arg1 0)

/-- The adapter `do_bsd_getlogin`, getlogin(2). The host `_getlogin(p, arg2)` fills at most
`arg2` bytes of the buffer it is given. -/
def do_bsd_getlogin (env : Env) (w : World) (arg1 arg2 : Int) : Int × World :=
  match lock_user env w VERIFY_WRITE arg1 arg2 false with
  | (none, w1) => (-TARGET_EFAULT, w1)
  | (some p, w1) =>
    let host := env.sys_getlogin arg2
    let ret := get_errno env host.1
    let w2 := World.mk (store_bytes w1.mem p.guest_addr (host.2.take arg2.toNat))
      (w1.trace ++ [Event._getlogin p.host_ptr arg2])
    (ret, unlock_user w2 p arg1 arg2)

/-- Modelled from the spec: `host_to_target_rusage` (resource-usage conversion of section
4.2 over the accessor of section 4.1; the function is defined in another file). The guest
record is locked for writing; a fault is reported as the bad-address code, otherwise the
converted record is written, the buffer released and `0` returned. -/
def host_to_target_rusage (env : Env) (w : World) (target_addr : Int) (rusage : List Int) :
    Int × World :=
  match lock_user_struct env w VERIFY_WRITE target_addr env.sizeof_target_rusage false with
  | (none, w1) => (-TARGET_EFAULT, w1)
  | (some p, w1) =>
    let w2 := World.mk
      (store_bytes w1.mem p.guest_addr
        ((env.h2t_rusage rusage).take env.sizeof_target_rusage.toNat))
      (w1.trace ++ [Event.store p.host_ptr 0 env.sizeof_target_rusage])
    (0, unlock_user_struct w2 p target_addr env.sizeof_target_rusage true)

/-- The adapter `do_bsd_getrusage`, getrusage(2). The value returned by
`host_to_target_rusage` is not used by the source. -/
def do_bsd_getrusage (env : Env) (w : World) (who target_addr : Int) : Int × World :=
  let host := env.sys_getrusage who
  let w1 := emit w (Event.getrusage who)
  let ret := get_errno env host.1
  if !is_error ret then
    (ret, (host_to_target_rusage env w1 target_addr host.2).2)
  else (ret, w1)

/-- The `switch (resource)` of `do_bsd_getrlimit`: the result code, the host-layout limit
pair and the world after it. -/
def getrlimit_switch (env : Env) (w : World) (resource : Int) : Int × Rlimit × World :=
  if resource = RLIMIT_STACK then
    (0, Rlimit.mk env.target_dflssiz env.target_maxssiz, w)
  else if resource = RLIMIT_DATA then
    (0, Rlimit.mk env.target_dfldsiz env.target_maxdsiz, w)
  else
    (get_errno env (env.sys_getrlimit resource).1, (env.sys_getrlimit resource).2,
      emit w (Event.getrlimit resource))

/-- The adapter `do_bsd_getrlimit`, getrlimit(2). -/
def do_bsd_getrlimit (env : Env) (w : World) (arg1 arg2 : Int) : Int × World :=
  let resource := env.target_to_host_resource arg1
  let sw := getrlimit_switch env w resource
  let ret := sw.1
  let rlim := sw.2.1
  if !is_error ret then
    match lock_user_struct env sw.2.2 VERIFY_WRITE arg2 sizeof_target_rlimit false with
    | (none, w1) => (-TARGET_EFAULT, w1)
    | (some target_rlim, w1) =>
      let w2 := view_stq env w1 target_rlim 0 (env.host_to_target_rlim rlim.rlim_cur)
      let w3 := view_stq env w2 target_rlim 8 (env.host_to_target_rlim rlim.rlim_max)
      (ret, unlock_user_struct w3 target_rlim arg2 sizeof_target_rlimit true)
  else (ret, sw.2.2)

/-- The adapter `do_bsd_setrlimit`, setrlimit(2). -/
def do_bsd_setrlimit (env : Env) (w : World) (arg1 arg2 : Int) : Int × World :=
  let resource := env.target_to_host_resource arg1
  if RLIMIT_STACK = resource then
    (-TARGET_EPERM, w)
  else
    match lock_user_struct env w VERIFY_READ arg2 sizeof_target_rlimit true with
    | (none, w1) => (-TARGET_EFAULT, w1)
    | (some target_rlim, w1) =>
      let c := view_ldq env w1 target_rlim 0
      let m := view_ldq env c.2 target_rlim 8
      let rlim := Rlimit.mk (env.target_to_host_rlim c.1) (env.target_to_host_rlim m.1)
      let w2 := unlock_user_struct m.2 target_rlim arg2 sizeof_target_rlimit false
      (get_errno env (env.sys_setrlimit resource rlim),
        emit w2 (Event.setrlimit resource rlim.rlim_cur rlim.rlim_max))

/-! ## Trace disciplines -/

/-- Scan a trace for the lock discipline. The state is the outstanding buffer (host
pointer and guest address) if any. A second successful lock while one is outstanding, an
unlock with nothing outstanding and an unlock of another pointer or address are
violations (`none`). -/
def locks_scan : Option (Int × Int) → List Event → Option (Option (Int × Int))
  | st, [] => some st
  | st, Event.lock _ a _ _ (some p) :: es =>
    match st with
    | none => locks_scan (some (p, a)) es
    | some _ => none
  | st, Event.unlock q b _ :: es =>
    match st with
    | none => none
    | some (p, a) => if p = q ∧ a = b then locks_scan none es else none
  | st, _ :: es => locks_scan st es

/-- The lock discipline holds of a whole trace: no violation, nothing left outstanding. -/
def locks_balanced (es : List Event) : Bool := decide (locks_scan none es = some none)

/-- Scan a trace for accesses outside the locked byte range. The state is the outstanding
buffer (host pointer and locked length) if any; every load or store through a locked
pointer must lie in `[0, len)` of the buffer outstanding at that moment. -/
def accesses_in_bounds : Option (Int × Int) → List Event → Bool
  | _, [] => true
  | _, Event.lock _ _ len _ (some p) :: es => accesses_in_bounds (some (p, len)) es
  | _, Event.unlock _ _ _ :: es => accesses_in_bounds none es
  | st, Event.load q off size :: es =>
    (match st with
      | some (p, len) => decide (p = q ∧ 0 ≤ off ∧ off + size ≤ len)
      | none => false) && accesses_in_bounds st es
  | st, Event.store q off size :: es =>
    (match st with
      | some (p, len) => decide (p = q ∧ 0 ≤ off ∧ off + size ≤ len)
      | none => false) && accesses_in_bounds st es
  | st, _ :: es => accesses_in_bounds st es

/-- The list of `n` 32-bit ids stored in guest memory from address `addr`. -/
def read_ids (be : Bool) (mem : Int → Nat) (addr : Int) (n : Nat) : List Nat :=
  (List.range n).map (fun (i : Nat) => ldl_p be mem (addr + sizeof_uint32 * (i : Int)))

/-! ## Events of the two conversion loops -/

/-- The stores of the `getgroups` loop: elements `i, ..., i + n - 1`. -/
def store_events (p : LockedBuf) (i n : Nat) : List Event :=
  (List.range' i n).map (fun (k : Nat) => Event.store p.host_ptr (sizeof_uint32 * (k : Int)) 4)

/-- The loads of the `setgroups` loop: elements `i, ..., i + n - 1`. -/
def load_events (p : LockedBuf) (i n : Nat) : List Event :=
  (List.range' i n).map (fun (k : Nat) => Event.load p.host_ptr (sizeof_uint32 * (k : Int)) 4)

/-! ## A concrete environment -/

/-- A sample configuration: a little-endian host running a big-endian guest whose valid
memory is `[4096, 8192)`, with one supplementary group on the host. -/
def env0 : Env where
  target_gprof := false
  bswap_needed := true
  host_big_endian := false
  access_ok := fun _ addr len => decide (4096 ≤ addr ∧ 0 ≤ len ∧ addr + len ≤ 8192)
  g2h := fun a => a + 1048576
  target_strlen := fun _ addr => if 4096 ≤ addr ∧ addr < 8192 then 4 else -1
  host_to_target_errno := fun e => e
  target_to_host_resource := fun r => r
  host_to_target_rlim := fun v => bswap32 (v.toNat / 4294967296) + 4294967296 * bswap32 v.toNat
  target_to_host_rlim := fun v => bswap32 (v / 4294967296) + 4294967296 * bswap32 v
  target_dflssiz := 8388608
  target_maxssiz := 67108864
  target_dfldsiz := 134217728
  target_maxdsiz := 536870912
  sizeof_target_rusage := 144
  h2t_rusage := fun r => r.map (fun x => x.toNat % 256)
  sys_getgroups := fun n =>
    if n < 0 then (HostRet.mk (-1) 22, []) else (HostRet.mk 1 0, if n = 0 then [] else [1001])
  sys_setgroups := fun n _ => if n < 0 then HostRet.mk (-1) 22 else HostRet.mk 0 0
  sys_setlogin := fun _ _ => HostRet.mk 0 0
  sys_getlogin := fun len => if len < 5 then (HostRet.mk (-1) 34, []) else
    (HostRet.mk 0 0, [114, 111, 111, 116, 0])
  sys_getrusage := fun who =>
    if who = 0 ∨ who = -1 ∨ who = 1 then (HostRet.mk 0 0, List.replicate 144 7)
    else (HostRet.mk (-1) 22, [])
  sys_getrlimit := fun r =>
    if 0 ≤ r ∧ r < 15 then (HostRet.mk 0 0, Rlimit.mk 1024 4096)
    else (HostRet.mk (-1) 22, Rlimit.mk 0 0)
  sys_setrlimit := fun r _ => if 0 ≤ r ∧ r < 15 then HostRet.mk 0 0 else HostRet.mk (-1) 22

/-- An initial world: zeroed guest memory and an empty trace. -/
def w0 : World := World.mk (fun _ => 0) []

/-! ## Termination, policy rejection, zero-sized group query -/

/-- C10 (as amended): for every exit code `arg1`, `do_bsd_exit` adds to the trace exactly
(`_mcleanup()` first when `TARGET_GPROF` is defined, then) `gdb_exit((int)arg1)`,
`qemu_plugin_user_exit()` and `_exit((int)arg1)`, in this order: each teardown hook runs
once, before the host terminate primitive; `gdb_exit` and `_exit` receive the same value,
the exit code converted to `int`, which is `arg1` itself whenever `arg1` is in the range
of `int` (so for 0 and for negative codes down to `-2^31`); `_exit` is the last effect,
guest memory is untouched and the adapter does not return a value. -/
theorem do_bsd_exit_hooks_then_exit (env : Env) (w : World) (arg1 : Int) :
    new_events w (do_bsd_exit env w arg1).2 =
        (if env.target_gprof then [Event._mcleanup] else []) ++
          [Event.gdb_exit (abi_long_to_int arg1), Event.qemu_plugin_user_exit,
            Event._exit (abi_long_to_int arg1)]
      ∧ (-2147483648 ≤ arg1 → arg1 < 2147483648 → abi_long_to_int arg1 = arg1)
      ∧ (-2147483648 ≤ arg1 → arg1 < 2147483648 →
          new_events w (do_bsd_exit env w arg1).2 =
            (if env.target_gprof then [Event._mcleanup] else []) ++
              [Event.gdb_exit arg1, Event.qemu_plugin_user_exit, Event._exit arg1])
      ∧ (new_events w (do_bsd_exit env w arg1).2).count
          (Event.gdb_exit (abi_long_to_int arg1)) = 1
      ∧ (new_events w (do_bsd_exit env w arg1).2).count Event.qemu_plugin_user_exit = 1
      ∧ (new_events w (do_bsd_exit env w arg1).2).count
          (Event._exit (abi_long_to_int arg1)) = 1
      ∧ (new_events w (do_bsd_exit env w arg1).2).getLast?
          = some (Event._exit (abi_long_to_int arg1))
      ∧ (do_bsd_exit env w arg1).2.mem = w.mem
      ∧ (do_bsd_exit env w arg1).1 = none := by
  have hfit : -2147483648 ≤ arg1 → arg1 < 2147483648 → abi_long_to_int arg1 = arg1 := by
    intro h1 h2
    unfold abi_long_to_int
    omega
  refine ⟨?_, hfit, ?_, ?_⟩
  · cases hg : env.target_gprof <;> simp [do_bsd_exit, hg, new_events, emit]
  · intro h1 h2
    cases hg : env.target_gprof <;> simp [do_bsd_exit, hg, new_events, emit, hfit h1 h2]
  · cases hg : env.target_gprof <;>
      simp [do_bsd_exit, hg, new_events, emit, List.count_cons, List.count_nil]

/-- C10 (as amended) at concrete inputs: the exit codes `0` and `-1` are in the range of
`int` and reach `gdb_exit` and `_exit` as they were given. -/
theorem do_bsd_exit_hooks_then_exit_witness :
    new_events w0 (do_bsd_exit env0 w0 0).2
        = [Event.gdb_exit 0, Event.qemu_plugin_user_exit, Event._exit 0]
      ∧ new_events w0 (do_bsd_exit env0 w0 (-1)).2
        = [Event.gdb_exit (-1), Event.qemu_plugin_user_exit, Event._exit (-1)] :=
  ⟨(do_bsd_exit_hooks_then_exit env0 w0 0).2.2.1 (by decide) (by decide),
    (do_bsd_exit_hooks_then_exit env0 w0 (-1)).2.2.1 (by decide) (by decide)⟩

/-- C10 (counterexample to the claim as stated): with a 64-bit `abi_long` exit code
`arg1 = 2^32 + 3`, `gdb_exit` and `_exit` receive `3`, not `arg1`. -/
theorem do_bsd_exit_narrows_exit_code :
    new_events w0 (do_bsd_exit env0 w0 4294967299).2
        = [Event.gdb_exit 3, Event.qemu_plugin_user_exit, Event._exit 3]
      ∧ Event.gdb_exit 4294967299 ∉ new_events w0 (do_bsd_exit env0 w0 4294967299).2
      ∧ Event._exit 4294967299 ∉ new_events w0 (do_bsd_exit env0 w0 4294967299).2 := by
  decide

/-- C4: when the resource argument maps to `RLIMIT_STACK`, `do_bsd_setrlimit` returns
`-TARGET_EPERM` for every guest address `arg2` and leaves the world as it was: no lock, no
read of guest memory, no host `setrlimit`, whatever the validity of `arg2` and whatever
limits are stored there. -/
theorem do_bsd_setrlimit_stack_eperm (env : Env) (w : World) (arg1 arg2 : Int)
    (hres : env.target_to_host_resource arg1 = RLIMIT_STACK) :
    (do_bsd_setrlimit env w arg1 arg2).1 = -TARGET_EPERM
      ∧ new_events w (do_bsd_setrlimit env w arg1 arg2).2 = []
      ∧ (do_bsd_setrlimit env w arg1 arg2).2.mem = w.mem
      ∧ (do_bsd_setrlimit env w arg1 arg2).2.trace = w.trace := by
  simp [do_bsd_setrlimit, hres, new_events]

/-- C4 at a concrete input: resource kind 3 is `RLIMIT_STACK`; the invalid address `0` and
the valid address `4096` both give `-TARGET_EPERM` with no effect. -/
theorem do_bsd_setrlimit_stack_eperm_witness :
    env0.target_to_host_resource 3 = RLIMIT_STACK
      ∧ (do_bsd_setrlimit env0 w0 3 0).1 = -TARGET_EPERM
      ∧ (do_bsd_setrlimit env0 w0 3 4096).1 = -TARGET_EPERM
      ∧ new_events w0 (do_bsd_setrlimit env0 w0 3 4096).2 = [] :=
  ⟨by decide, (do_bsd_setrlimit_stack_eperm env0 w0 3 0 (by decide)).1,
    (do_bsd_setrlimit_stack_eperm env0 w0 3 4096 (by decide)).1,
    (do_bsd_setrlimit_stack_eperm env0 w0 3 4096 (by decide)).2.1⟩

/-- C6: with `gidsetsize = 0`, `do_bsd_getgroups` returns the mapped result of the host
`getgroups(0, ...)` for every guest address `arg2`; its only effect is that host call: no
lock is attempted, nothing is stored, and guest memory after the call is guest memory
before it. -/
theorem do_bsd_getgroups_zero (env : Env) (w : World) (arg2 : Int) :
    (do_bsd_getgroups env w 0 arg2).1 = get_errno env (env.sys_getgroups 0).1
      ∧ new_events w (do_bsd_getgroups env w 0 arg2).2 = [Event.getgroups 0]
      ∧ (do_bsd_getgroups env w 0 arg2).2.mem = w.mem := by
  simp [do_bsd_getgroups, new_events, emit]

/-! ## Lock failures -/

theorem lock_user_fails (env : Env) (w : World) (type : AccessMode) (addr len : Int)
    (copy : Bool) (h : (lock_user env w type addr len copy).1 = none) :
    lock_user env w type addr len copy = (none, emit w (Event.lock type addr len copy none)) := by
  unfold lock_user at h ⊢
  split at h
  · simp at h
  · rename_i hc
    simp [hc]

theorem lock_user_string_fails (env : Env) (w : World) (addr : Int)
    (h : (lock_user_string env w addr).1 = none) :
    (lock_user_string env w addr).1 = none
      ∧ (lock_user_string env w addr).2.mem = w.mem
      ∧ host_calls_since w (lock_user_string env w addr).2 = [] := by
  unfold lock_user_string at h ⊢
  split
  · simp [host_calls_since, new_events]
  · rename_i hc
    simp only [hc, if_false] at h
    rw [lock_user_fails env w _ _ _ _ h]
    simp [host_calls_since, new_events, emit, Event.is_host]

/-- C1: whenever the lock of the guest range fails, `do_bsd_setgroups`, `do_bsd_setlogin`,
`do_bsd_getlogin` and `do_bsd_setrlimit` (with a resource kind other than `RLIMIT_STACK`)
each return `-TARGET_EFAULT`, invoke no host operation and leave guest memory as it
was. -/
theorem lock_failure_efault_no_host_call (env : Env) (w : World)
    (gidsetsize groups_addr name_addr buf_addr buf_len res_arg rlim_addr : Int)
    (hgroups : (lock_user env w VERIFY_READ groups_addr (gidsetsize * 2) true).1 = none)
    (hname : (lock_user_string env w name_addr).1 = none)
    (hbuf : (lock_user env w VERIFY_WRITE buf_addr buf_len false).1 = none)
    (hkind : env.target_to_host_resource res_arg ≠ RLIMIT_STACK)
    (hrlim : (lock_user_struct env w VERIFY_READ rlim_addr sizeof_target_rlimit true).1 = none) :
    ((do_bsd_setgroups env w gidsetsize groups_addr).1 = -TARGET_EFAULT
        ∧ host_calls_since w (do_bsd_setgroups env w gidsetsize groups_addr).2 = []
        ∧ (do_bsd_setgroups env w gidsetsize groups_addr).2.mem = w.mem)
      ∧ ((do_bsd_setlogin env w name_addr).1 = -TARGET_EFAULT
        ∧ host_calls_since w (do_bsd_setlogin env w name_addr).2 = []
        ∧ (do_bsd_setlogin env w name_addr).2.mem = w.mem)
      ∧ ((do_bsd_getlogin env w buf_addr buf_len).1 = -TARGET_EFAULT
        ∧ host_calls_since w (do_bsd_getlogin env w buf_addr buf_len).2 = []
        ∧ (do_bsd_getlogin env w buf_addr buf_len).2.mem = w.mem)
      ∧ ((do_bsd_setrlimit env w res_arg rlim_addr).1 = -TARGET_EFAULT
        ∧ host_calls_since w (do_bsd_setrlimit env w res_arg rlim_addr).2 = []
        ∧ (do_bsd_setrlimit env w res_arg rlim_addr).2.mem = w.mem) := by
  refine ⟨?_, ?_, ?_, ?_⟩
  · simp [do_bsd_setgroups, lock_user_fails env w _ _ _ _ hgroups, host_calls_since,
      new_events, emit, Event.is_host]
  · have h := lock_user_string_fails env w name_addr hname
    unfold do_bsd_setlogin
    generalize lock_user_string env w name_addr = r at h hname
    obtain ⟨r1, r2⟩ := r
    simp only at hname
    subst hname
    exact ⟨rfl, h.2.2, h.2.1⟩
  · simp [do_bsd_getlogin, lock_user_fails env w _ _ _ _ hbuf, host_calls_since,
      new_events, emit, Event.is_host]
  · have hk : ¬ RLIMIT_STACK = env.target_to_host_resource res_arg := fun h => hkind h.symm
    unfold lock_user_struct at hrlim
    simp [do_bsd_setrlimit, hk, lock_user_struct, lock_user_fails env w _ _ _ _ hrlim,
      host_calls_since, new_events, emit, Event.is_host]

/-- C1 at a concrete input: four guest ranges that are not inside the valid guest memory
`[4096, 8192)` of the sample environment. -/
theorem lock_failure_efault_no_host_call_witness :
    ((do_bsd_setgroups env0 w0 2 0).1 = -TARGET_EFAULT
        ∧ host_calls_since w0 (do_bsd_setgroups env0 w0 2 0).2 = []
        ∧ (do_bsd_setgroups env0 w0 2 0).2.mem = w0.mem)
      ∧ ((do_bsd_setlogin env0 w0 0).1 = -TARGET_EFAULT
        ∧ host_calls_since w0 (do_bsd_setlogin env0 w0 0).2 = []
        ∧ (do_bsd_setlogin env0 w0 0).2.mem = w0.mem)
      ∧ ((do_bsd_getlogin env0 w0 8190 33).1 = -TARGET_EFAULT
        ∧ host_calls_since w0 (do_bsd_getlogin env0 w0 8190 33).2 = []
        ∧ (do_bsd_getlogin env0 w0 8190 33).2.mem = w0.mem)
      ∧ ((do_bsd_setrlimit env0 w0 7 8184).1 = -TARGET_EFAULT
        ∧ host_calls_since w0 (do_bsd_setrlimit env0 w0 7 8184).2 = []
        ∧ (do_bsd_setrlimit env0 w0 7 8184).2.mem = w0.mem) :=
  lock_failure_efault_no_host_call env0 w0 2 0 0 8190 33 7 8184
    (by decide) (by decide) (by decide) (by decide) (by decide)

/-! ## Effects of the two conversion loops -/

theorem getgroups_loop_trace (env : Env) (gl : List Nat) (p : LockedBuf) (n i : Nat)
    (w : World) :
    (getgroups_loop env gl p n i w).trace = w.trace ++ store_events p i n := by
  induction n generalizing i w with
  | zero => simp [getgroups_loop, store_events]
  | succ n ih =>
    rw [getgroups_loop, ih]
    simp [view_stl, store_events, List.range'_succ]

theorem setgroups_loop_trace (env : Env) (p : LockedBuf) (n i : Nat) (s : List Nat × World) :
    (setgroups_loop env p n i s).2.trace = s.2.trace ++ load_events p i n := by
  induction n generalizing i s with
  | zero => simp [setgroups_loop, load_events]
  | succ n ih =>
    rw [setgroups_loop, ih]
    simp [view_ldl, emit, load_events, List.range'_succ]

theorem setgroups_loop_mem (env : Env) (p : LockedBuf) (n i : Nat) (s : List Nat × World) :
    (setgroups_loop env p n i s).2.mem = s.2.mem := by
  induction n generalizing i s with
  | zero => simp [setgroups_loop]
  | succ n ih =>
    rw [setgroups_loop, ih]
    simp [view_ldl, emit]

theorem load_events_not_host (p : LockedBuf) (i n : Nat) :
    (load_events p i n).filter Event.is_host = [] := by
  unfold load_events
  rw [List.filter_eq_nil_iff]
  intro a ha
  simp only [List.mem_map] at ha
  obtain ⟨k, _, rfl⟩ := ha
  simp [Event.is_host]

/-! ## Order of host call and address check in the query adapters -/

theorem ldl_stl_same (be : Bool) (mem : Int → Nat) (a : Int) (v : Nat) :
    ldl_p be (stl_p be mem a v) a = v % 4294967296 := by
  cases be <;> simp [ldl_p, stl_p] <;> omega

theorem stl_other_byte (be : Bool) (mem : Int → Nat) (a b : Int) (v : Nat)
    (h : b < a ∨ a + 4 ≤ b) : stl_p be mem a v b = mem b := by
  have h0 : b ≠ a := by omega
  have h1 : b ≠ a + 1 := by omega
  have h2 : b ≠ a + 2 := by omega
  have h3 : b ≠ a + 3 := by omega
  simp [stl_p, h0, h1, h2, h3]

theorem ldl_stl_other (be : Bool) (mem : Int → Nat) (a b : Int) (v : Nat)
    (h : b + 4 ≤ a ∨ a + 4 ≤ b) : ldl_p be (stl_p be mem a v) b = ldl_p be mem b := by
  unfold ldl_p
  rw [stl_other_byte be mem a b v (by omega), stl_other_byte be mem a (b + 1) v (by omega),
    stl_other_byte be mem a (b + 2) v (by omega), stl_other_byte be mem a (b + 3) v (by omega)]

theorem ldl_lt (be : Bool) (mem : Int → Nat) (a : Int) : ldl_p be mem a < 4294967296 := by
  cases be <;> simp [ldl_p] <;> omega

theorem ldq_stq_same (be : Bool) (mem : Int → Nat) (a : Int) (v : Nat) :
    ldq_p be (stq_p be mem a v) a = v % 18446744073709551616 := by
  cases be
  · simp only [ldq_p, stq_p, Bool.false_eq_true, if_false]
    rw [ldl_stl_same, ldl_stl_other _ _ _ _ _ (by omega), ldl_stl_same]
    omega
  · simp only [ldq_p, stq_p, if_true]
    rw [ldl_stl_same, ldl_stl_other _ _ _ _ _ (by omega), ldl_stl_same]
    omega

theorem ldq_stq_other (be : Bool) (mem : Int → Nat) (a b : Int) (v : Nat)
    (h : b + 8 ≤ a ∨ a + 8 ≤ b) : ldq_p be (stq_p be mem a v) b = ldq_p be mem b := by
  cases be
  · simp only [ldq_p, stq_p, Bool.false_eq_true, if_false]
    rw [ldl_stl_other _ _ _ _ _ (by omega), ldl_stl_other _ _ _ _ _ (by omega),
      ldl_stl_other _ _ _ _ _ (by omega), ldl_stl_other _ _ _ _ _ (by omega)]
  · simp only [ldq_p, stq_p, if_true]
    rw [ldl_stl_other _ _ _ _ _ (by omega), ldl_stl_other _ _ _ _ _ (by omega),
      ldl_stl_other _ _ _ _ _ (by omega), ldl_stl_other _ _ _ _ _ (by omega)]

/-! ## Configured limits -/

/-- C5: when the resource argument maps to `RLIMIT_STACK` (resp. `RLIMIT_DATA`) and the
guest address `arg2` is valid, `do_bsd_getrlimit` returns `0` and the guest record at
`arg2` then holds `rlim_cur = host_to_target_rlim(target_dflssiz)` and
`rlim_max = host_to_target_rlim(target_maxssiz)` (resp. `target_dfldsiz`,
`target_maxdsiz`) as 64-bit fields; the host `getrlimit` is not invoked, and result and
final world are the same whatever the host `getrlimit` would do. -/
theorem do_bsd_getrlimit_configured (env : Env) (w : World) (arg1 arg2 : Int)
    (hkind : env.target_to_host_resource arg1 = RLIMIT_STACK
      ∨ env.target_to_host_resource arg1 = RLIMIT_DATA)
    (hok : env.access_ok VERIFY_WRITE arg2 sizeof_target_rlimit = true) :
    (do_bsd_getrlimit env w arg1 arg2).1 = 0
      ∧ ldq_p env.host_big_endian (do_bsd_getrlimit env w arg1 arg2).2.mem arg2
          = env.host_to_target_rlim
              (if env.target_to_host_resource arg1 = RLIMIT_STACK then env.target_dflssiz
                else env.target_dfldsiz) % 18446744073709551616
      ∧ ldq_p env.host_big_endian (do_bsd_getrlimit env w arg1 arg2).2.mem (arg2 + 8)
          = env.host_to_target_rlim
              (if env.target_to_host_resource arg1 = RLIMIT_STACK then env.target_maxssiz
                else env.target_maxdsiz) % 18446744073709551616
      ∧ host_calls_since w (do_bsd_getrlimit env w arg1 arg2).2 = []
      ∧ ∀ g : Int → HostRet × Rlimit,
          do_bsd_getrlimit { env with sys_getrlimit := g } w arg1 arg2
            = do_bsd_getrlimit env w arg1 arg2 := by
  have hsd : RLIMIT_DATA ≠ RLIMIT_STACK := by decide
  rcases hkind with hk | hk
  · refine ⟨?_, ?_, ?_, ?_, ?_⟩
    · simp [do_bsd_getrlimit, getrlimit_switch, hk, is_error, lock_user_struct, lock_user, hok]
    · simp only [do_bsd_getrlimit, getrlimit_switch, hk, is_error, lock_user_struct, lock_user,
        hok, view_stq, unlock_user_struct, unlock_user, emit, if_true]
      simp only [Int.lt_irrefl, decide_False, Bool.not_false, if_true, Int.add_zero]
      rw [ldq_stq_other _ _ _ _ _ (by omega), ldq_stq_same]
    · simp only [do_bsd_getrlimit, getrlimit_switch, hk, is_error, lock_user_struct, lock_user,
        hok, view_stq, unlock_user_struct, unlock_user, emit, if_true]
      simp only [Int.lt_irrefl, decide_False, Bool.not_false, if_true, Int.add_zero]
      rw [ldq_stq_same]
    · simp [do_bsd_getrlimit, getrlimit_switch, hk, is_error, lock_user_struct, lock_user, hok,
        host_calls_since, new_events, emit, view_stq, unlock_user_struct, unlock_user,
        Event.is_host]
    · intro g
      simp [do_bsd_getrlimit, getrlimit_switch, hk, is_error, lock_user_struct, lock_user, hok,
        view_stq]
  · refine ⟨?_, ?_, ?_, ?_, ?_⟩
    · simp [do_bsd_getrlimit, getrlimit_switch, hk, hsd, is_error, lock_user_struct, lock_user,
        hok]
    · simp only [do_bsd_getrlimit, getrlimit_switch, hk, hsd, is_error, lock_user_struct,
        lock_user, hok, view_stq, unlock_user_struct, unlock_user, emit, if_true, if_false]
      simp only [Int.lt_irrefl, decide_False, Bool.not_false, if_true, Int.add_zero]
      rw [ldq_stq_other _ _ _ _ _ (by omega), ldq_stq_same]
    · simp only [do_bsd_getrlimit, getrlimit_switch, hk, hsd, is_error, lock_user_struct,
        lock_user, hok, view_stq, unlock_user_struct, unlock_user, emit, if_true, if_false]
      simp only [Int.lt_irrefl, decide_False, Bool.not_false, if_true, Int.add_zero]
      rw [ldq_stq_same]
    · simp [do_bsd_getrlimit, getrlimit_switch, hk, hsd, is_error, lock_user_struct, lock_user,
        hok, host_calls_since, new_events, emit, view_stq, unlock_user_struct, unlock_user,
        Event.is_host]
    · intro g
      simp [do_bsd_getrlimit, getrlimit_switch, hk, hsd, is_error, lock_user_struct, lock_user,
        hok, view_stq]

/-- C5 at a concrete input: resource kinds 3 (`RLIMIT_STACK`) and 2 (`RLIMIT_DATA`) with the
valid guest address `4096`. -/
theorem do_bsd_getrlimit_configured_witness :
    ((do_bsd_getrlimit env0 w0 3 4096).1 = 0
        ∧ ldq_p env0.host_big_endian (do_bsd_getrlimit env0 w0 3 4096).2.mem 4096
          = env0.host_to_target_rlim 8388608 % 18446744073709551616
        ∧ host_calls_since w0 (do_bsd_getrlimit env0 w0 3 4096).2 = [])
      ∧ ((do_bsd_getrlimit env0 w0 2 4096).1 = 0
        ∧ ldq_p env0.host_big_endian (do_bsd_getrlimit env0 w0 2 4096).2.mem (4096 + 8)
          = env0.host_to_target_rlim 536870912 % 18446744073709551616
        ∧ host_calls_since w0 (do_bsd_getrlimit env0 w0 2 4096).2 = []) :=
  ⟨⟨(do_bsd_getrlimit_configured env0 w0 3 4096 (Or.inl (by decide)) (by decide)).1,
      (do_bsd_getrlimit_configured env0 w0 3 4096 (Or.inl (by decide)) (by decide)).2.1,
      (do_bsd_getrlimit_configured env0 w0 3 4096 (Or.inl (by decide)) (by decide)).2.2.2.1⟩,
    ⟨(do_bsd_getrlimit_configured env0 w0 2 4096 (Or.inr (by decide)) (by decide)).1,
      (do_bsd_getrlimit_configured env0 w0 2 4096 (Or.inr (by decide)) (by decide)).2.2.1,
      (do_bsd_getrlimit_configured env0 w0 2 4096 (Or.inr (by decide)) (by decide)).2.2.2.1⟩⟩

/-! ## Write-back fault of the usage record -/

/-- The result of `do_bsd_getrusage` is the mapped result of the host call on every path:
it does not depend on the guest address or on what the write-back reports. -/
theorem do_bsd_getrusage_result (env : Env) (w : World) (who target_addr : Int) :
    (do_bsd_getrusage env w who target_addr).1 = get_errno env (env.sys_getrusage who).1 := by
  unfold do_bsd_getrusage
  cases he : is_error (get_errno env (env.sys_getrusage who).1) <;> simp [he]

/-- C3 (evaluation at the failing input): with `who = 0` (`RUSAGE_SELF`) and the invalid
guest address `0`, the host `getrusage` succeeds, the write-back
`host_to_target_rusage` reports `-TARGET_EFAULT`, and `do_bsd_getrusage` returns `0`,
not the bad-address code. -/
theorem do_bsd_getrusage_drops_fault :
    env0.access_ok VERIFY_WRITE 0 env0.sizeof_target_rusage = false
      ∧ get_errno env0 (env0.sys_getrusage 0).1 = 0
      ∧ (host_to_target_rusage env0 (emit w0 (Event.getrusage 0)) 0
            (env0.sys_getrusage 0).2).1 = -TARGET_EFAULT
      ∧ (do_bsd_getrusage env0 w0 0 0).1 = 0
      ∧ (do_bsd_getrusage env0 w0 0 0).1 ≠ -TARGET_EFAULT := by
  decide

/-! ## Locked length of the group list -/

/-- The bounds check is not vacuous: a 4-byte access at offset 0 of a 4-byte buffer is
accepted, the same access to a 2-byte buffer or with nothing locked is rejected. -/
theorem accesses_in_bounds_sample :
    accesses_in_bounds none [Event.lock VERIFY_READ 4096 4 true (some 7), Event.load 7 0 4,
        Event.unlock 7 4096 0] = true
      ∧ accesses_in_bounds none [Event.lock VERIFY_READ 4096 2 true (some 7), Event.load 7 0 4,
        Event.unlock 7 4096 0] = false
      ∧ accesses_in_bounds none [Event.load 7 0 4] = false := by
  decide

/-- C7 (evaluation at the failing input): with `gidsetsize = 1` and a valid guest address,
`do_bsd_setgroups` locks 2 bytes and then reads the 4-byte element 0, and
`do_bsd_getgroups` (the host reporting one group) locks 2 bytes and then writes the
4-byte element 0: the accessed element does not lie inside the locked byte range. -/
theorem grouplist_lock_shorter_than_elements :
    (new_events w0 (do_bsd_setgroups env0 w0 1 4096).2
        = [Event.lock VERIFY_READ 4096 2 true (some 1052672), Event.load 1052672 0 4,
            Event.unlock 1052672 4096 0, Event.setgroups 1 [0]]
      ∧ accesses_in_bounds none (new_events w0 (do_bsd_setgroups env0 w0 1 4096).2) = false)
    ∧ (new_events w0 (do_bsd_getgroups env0 w0 1 4096).2
        = [Event.getgroups 1, Event.lock VERIFY_WRITE 4096 2 false (some 1052672),
            Event.store 1052672 0 4, Event.unlock 1052672 4096 2]
      ∧ accesses_in_bounds none (new_events w0 (do_bsd_getgroups env0 w0 1 4096).2) = false) := by
  decide

/-! ## Lock discipline -/

theorem locks_scan_append (st : Option (Int × Int)) (xs ys : List Event) :
    locks_scan st (xs ++ ys) = (locks_scan st xs).bind (fun s => locks_scan s ys) := by
  induction xs generalizing st with
  | nil => simp [locks_scan]
  | cons e es ih =>
    cases e <;> simp [locks_scan, ih]
    case lock t a l c hp =>
      cases hp <;> cases st <;> simp [locks_scan, ih]
    case unlock q b l =>
      cases st with
      | none => simp
      | some pa =>
        obtain ⟨p, a⟩ := pa
        by_cases h : p = q ∧ a = b <;> simp [h, ih]

theorem locks_scan_store_events (st : Option (Int × Int)) (p : LockedBuf) (i n : Nat) :
    locks_scan st (store_events p i n) = some st := by
  induction n generalizing i with
  | zero => simp [store_events, locks_scan]
  | succ n ih =>
    have h := ih (i + 1)
    simp only [store_events] at h ⊢
    simp [List.range'_succ, locks_scan, h]

theorem locks_scan_load_events (st : Option (Int × Int)) (p : LockedBuf) (i n : Nat) :
    locks_scan st (load_events p i n) = some st := by
  induction n generalizing i with
  | zero => simp [load_events, locks_scan]
  | succ n ih =>
    have h := ih (i + 1)
    simp only [load_events] at h ⊢
    simp [List.range'_succ, locks_scan, h]

theorem do_bsd_getgroups_balanced (env : Env) (w : World) (gidsetsize arg2 : Int) :
    locks_balanced (new_events w (do_bsd_getgroups env w gidsetsize arg2).2) = true := by
  unfold do_bsd_getgroups locks_balanced
  by_cases hz : gidsetsize = 0
  · simp [hz, new_events, emit, locks_scan]
  · cases he : is_error (get_errno env (env.sys_getgroups gidsetsize).1)
    · cases ha : env.access_ok VERIFY_WRITE arg2 (gidsetsize * 2)
      · simp [hz, he, ha, lock_user, new_events, emit, locks_scan]
      · simp [hz, he, ha, lock_user, new_events, emit, locks_scan, unlock_user,
          getgroups_loop_trace, locks_scan_append, locks_scan_store_events]
    · simp [hz, he, new_events, emit, locks_scan]

theorem do_bsd_setgroups_balanced (env : Env) (w : World) (gidsetsize arg2 : Int) :
    locks_balanced (new_events w (do_bsd_setgroups env w gidsetsize arg2).2) = true := by
  unfold do_bsd_setgroups locks_balanced
  cases ha : env.access_ok VERIFY_READ arg2 (gidsetsize * 2)
  · simp [ha, lock_user, new_events, emit, locks_scan]
  · simp [ha, lock_user, new_events, emit, locks_scan, unlock_user,
      setgroups_loop_trace, locks_scan_append, locks_scan_load_events]

theorem do_bsd_setlogin_balanced (env : Env) (w : World) (arg1 : Int) :
    locks_balanced (new_events w (do_bsd_setlogin env w arg1).2) = true := by
  unfold do_bsd_setlogin lock_user_string locks_balanced
  by_cases hl : env.target_strlen w.mem arg1 < 0
  · simp [hl, new_events, locks_scan]
  · cases ha : env.access_ok VERIFY_READ arg1 (env.target_strlen w.mem arg1 + 1)
    · simp [hl, ha, lock_user, new_events, emit, locks_scan]
    · simp [hl, ha, lock_user, new_events, emit, locks_scan, unlock_user]

theorem do_bsd_getlogin_balanced (env : Env) (w : World) (arg1 arg2 : Int) :
    locks_balanced (new_events w (do_bsd_getlogin env w arg1 arg2).2) = true := by
  unfold do_bsd_getlogin locks_balanced
  cases ha : env.access_ok VERIFY_WRITE arg1 arg2
  · simp [ha, lock_user, new_events, emit, locks_scan]
  · simp [ha, lock_user, new_events, emit, locks_scan, unlock_user]

theorem is_error_zero : is_error 0 = false := by decide

theorem do_bsd_getrlimit_balanced (env : Env) (w : World) (arg1 arg2 : Int) :
    locks_balanced (new_events w (do_bsd_getrlimit env w arg1 arg2).2) = true := by
  have hsd : RLIMIT_DATA ≠ RLIMIT_STACK := by decide
  unfold do_bsd_getrlimit getrlimit_switch locks_balanced
  cases ha : env.access_ok VERIFY_WRITE arg2 sizeof_target_rlimit <;>
  by_cases hs : env.target_to_host_resource arg1 = RLIMIT_STACK <;>
  by_cases hd : env.target_to_host_resource arg1 = RLIMIT_DATA <;>
  cases he : is_error (get_errno env (env.sys_getrlimit (env.target_to_host_resource arg1)).1) <;>
  simp [ha, hs, hd, hsd, he, is_error_zero, lock_user_struct, lock_user, new_events, emit,
    locks_scan, unlock_user_struct, unlock_user, view_stq]

theorem do_bsd_setrlimit_balanced (env : Env) (w : World) (arg1 arg2 : Int) :
    locks_balanced (new_events w (do_bsd_setrlimit env w arg1 arg2).2) = true := by
  unfold do_bsd_setrlimit locks_balanced
  cases ha : env.access_ok VERIFY_READ arg2 sizeof_target_rlimit <;>
  by_cases hs : RLIMIT_STACK = env.target_to_host_resource arg1 <;>
  simp [ha, hs, lock_user_struct, lock_user, new_events, emit, locks_scan,
    unlock_user_struct, unlock_user, view_ldq]

/-- The lock discipline check is not vacuous: a lock left outstanding, an unlock with
nothing locked, an unlock of another guest address, a second unlock and a nested lock are
all rejected. -/
theorem locks_balanced_rejects :
    locks_balanced [Event.lock VERIFY_READ 1 2 true (some 5)] = false
      ∧ locks_balanced [Event.unlock 5 1 2] = false
      ∧ locks_balanced [Event.lock VERIFY_READ 1 2 true (some 5), Event.unlock 5 2 2] = false
      ∧ locks_balanced [Event.lock VERIFY_READ 1 2 true (some 5), Event.unlock 5 1 2,
          Event.unlock 5 1 2] = false
      ∧ locks_balanced [Event.lock VERIFY_READ 1 2 true (some 5),
          Event.lock VERIFY_READ 1 2 true (some 5), Event.unlock 5 1 2] = false
      ∧ locks_balanced [Event.lock VERIFY_READ 1 2 true (some 5), Event.load 5 0 4,
          Event.unlock 5 1 2] = true := by
  decide

/-- C9: in `do_bsd_getgroups`, `do_bsd_setgroups`, `do_bsd_setlogin`, `do_bsd_getlogin`,
`do_bsd_getrlimit` and `do_bsd_setrlimit`, for every environment and every argument (hence
on every path: success, host error, lock failure, policy rejection) the effects of the
call satisfy the lock discipline: every successful lock is followed by exactly one unlock
of the same host pointer and guest address before the adapter returns, no unlock happens
with nothing locked, and no second buffer is locked while one is outstanding. -/
theorem locks_released_exactly_once (env : Env) (w : World) (a b : Int) :
    locks_balanced (new_events w (do_bsd_getgroups env w a b).2) = true
      ∧ locks_balanced (new_events w (do_bsd_setgroups env w a b).2) = true
      ∧ locks_balanced (new_events w (do_bsd_setlogin env w a).2) = true
      ∧ locks_balanced (new_events w (do_bsd_getlogin env w a b).2) = true
      ∧ locks_balanced (new_events w (do_bsd_getrlimit env w a b).2) = true
      ∧ locks_balanced (new_events w (do_bsd_setrlimit env w a b).2) = true :=
  ⟨do_bsd_getgroups_balanced env w a b, do_bsd_setgroups_balanced env w a b,
    do_bsd_setlogin_balanced env w a, do_bsd_getlogin_balanced env w a b,
    do_bsd_getrlimit_balanced env w a b, do_bsd_setrlimit_balanced env w a b⟩


/-! ## Conversion of an id list -/

theorem bswap32_bytes (a b c d : Nat) (ha : a < 256) (hb : b < 256) (hc : c < 256)
    (hd : d < 256) :
    bswap32 (((a * 256 + b) * 256 + c) * 256 + d) = ((d * 256 + c) * 256 + b) * 256 + a := by
  unfold bswap32
  have h0 : (((a * 256 + b) * 256 + c) * 256 + d) % 256 = d := by omega
  have h1 : (((a * 256 + b) * 256 + c) * 256 + d) / 256 = (a * 256 + b) * 256 + c := by omega
  have h2 : ((a * 256 + b) * 256 + c) / 256 = a * 256 + b := by omega
  have h3 : (a * 256 + b) / 256 = a := by omega
  rw [h0, h1, h2, h3]
  have h4 : ((a * 256 + b) * 256 + c) % 256 = c := by omega
  have h5 : (a * 256 + b) % 256 = b := by omega
  rw [h4, h5, Nat.mod_eq_of_lt ha]

theorem bswap32_bswap32 (x : Nat) (h : x < 4294967296) : bswap32 (bswap32 x) = x := by
  have hx : x = ((x / 256 / 256 / 256 % 256 * 256 + x / 256 / 256 % 256) * 256
      + x / 256 % 256) * 256 + x % 256 := by omega
  have e1 : bswap32 x = ((x % 256 * 256 + x / 256 % 256) * 256 + x / 256 / 256 % 256) * 256
      + x / 256 / 256 / 256 % 256 := rfl
  rw [e1, bswap32_bytes _ _ _ _ (Nat.mod_lt _ (by decide)) (Nat.mod_lt _ (by decide))
    (Nat.mod_lt _ (by decide)) (Nat.mod_lt _ (by decide))]
  exact hx.symm

theorem bswap32_lt (x : Nat) : bswap32 x < 4294967296 := by
  unfold bswap32; omega

theorem tswap32_tswap32 (env : Env) (x : Nat) (h : x < 4294967296) :
    tswap32 env (tswap32 env x) = x := by
  unfold tswap32
  cases env.bswap_needed <;> simp [bswap32_bswap32 x h]

theorem tswap32_lt (env : Env) (x : Nat) (h : x < 4294967296) :
    tswap32 env x < 4294967296 := by
  unfold tswap32
  cases env.bswap_needed <;> simp [h, bswap32_lt]

theorem setgroups_loop_getElem (env : Env) (p : LockedBuf) (n i : Nat) (s : List Nat × World)
    (j : Nat) :
    (setgroups_loop env p n i s).1[j]? =
      if i ≤ j ∧ j < i + n ∧ j < s.1.length then
        some (tswap32 env
          (ldl_p env.host_big_endian s.2.mem (p.guest_addr + sizeof_uint32 * (j : Int))))
      else s.1[j]? := by
  induction n generalizing i s with
  | zero =>
    have h : ¬ (i ≤ j ∧ j < i + 0 ∧ j < s.1.length) := by omega
    rw [if_neg h, setgroups_loop]
  | succ n ih =>
    rw [setgroups_loop, ih]
    simp only [view_ldl, emit, List.length_set, List.getElem?_set]
    by_cases hji : i = j
    · subst hji
      by_cases hl : i < s.1.length
      · simp [hl]
      · have hl2 : s.1.length ≤ i := by omega
        simp [hl, hl2]
    · by_cases h1 : i + 1 ≤ j
      · have h2 : i ≤ j := by omega
        have h3 : (j < i + 1 + n) = (j < i + (n + 1)) := by rw [Nat.add_right_comm, Nat.add_assoc]
        simp [hji, h1, h2, h3]
      · have h2 : ¬ i ≤ j := by omega
        simp [hji, h1, h2]

theorem getgroups_loop_ldl (env : Env) (gl : List Nat) (p : LockedBuf) (n i : Nat) (w : World)
    (j : Nat) :
    ldl_p env.host_big_endian (getgroups_loop env gl p n i w).mem
        (p.guest_addr + sizeof_uint32 * (j : Int)) =
      if i ≤ j ∧ j < i + n then tswap32 env (gl.getD j 0) % 4294967296
      else ldl_p env.host_big_endian w.mem (p.guest_addr + sizeof_uint32 * (j : Int)) := by
  induction n generalizing i w with
  | zero =>
    have h : ¬ (i ≤ j ∧ j < i + 0) := by omega
    rw [if_neg h, getgroups_loop]
  | succ n ih =>
    rw [getgroups_loop, ih]
    simp only [view_stl]
    by_cases hji : i = j
    · subst hji
      simp [ldl_stl_same]
    · have hd :
          p.guest_addr + sizeof_uint32 * (j : Int) + 4 ≤ p.guest_addr + sizeof_uint32 * (i : Int)
          ∨ p.guest_addr + sizeof_uint32 * (i : Int) + 4
              ≤ p.guest_addr + sizeof_uint32 * (j : Int) := by
        unfold sizeof_uint32; omega
      rw [ldl_stl_other _ _ _ _ _ hd]
      by_cases h1 : i + 1 ≤ j
      · have h2 : i ≤ j := by omega
        have h3 : (j < i + 1 + n) = (j < i + (n + 1)) := by rw [Nat.add_right_comm, Nat.add_assoc]
        simp [h1, h2, h3]
      · have h2 : ¬ i ≤ j := by omega
        simp [h1, h2]

theorem range_getElem_lt (n j : Nat) (h : j < n) : (List.range n)[j]? = some j := by
  simp [List.getElem?_range, h]

theorem range_getElem_ge (n j : Nat) (h : n ≤ j) : (List.range n)[j]? = none := by
  simp [List.getElem?_eq_none_iff, h]

theorem replicate_getElem_ge (n j : Nat) (h : n ≤ j) : (List.replicate n 0)[j]? = none := by
  simp [List.getElem?_eq_none_iff, h]

theorem setgroups_loop_list (env : Env) (w : World) (src : LockedBuf) (n : Nat) :
    (setgroups_loop env src n 0 (g_try_new n, w)).1
      = (read_ids env.host_big_endian w.mem src.guest_addr n).map (tswap32 env) := by
  apply List.ext_getElem?
  intro j
  rw [setgroups_loop_getElem]
  by_cases hj : j < n
  · simp [g_try_new, read_ids, hj, range_getElem_lt n j hj]
  · have hj2 : n ≤ j := by omega
    simp [g_try_new, read_ids, hj, range_getElem_ge n j hj2, replicate_getElem_ge n j hj2]

theorem getgroups_loop_list (env : Env) (gl : List Nat) (wd : World) (dst : LockedBuf)
    (n : Nat) :
    read_ids env.host_big_endian (getgroups_loop env gl dst n 0 wd).mem dst.guest_addr n
      = (List.range n).map (fun j => tswap32 env (gl.getD j 0) % 4294967296) := by
  unfold read_ids
  apply List.map_congr_left
  intro j hj
  rw [getgroups_loop_ldl]
  have hj2 : j < n := List.mem_range.mp hj
  simp [hj2]

/-- C8: the conversion of an id list is involutive and order preserving. For every guest
memory and every length `n` (0, 1 or more), the guest-to-host loop of `do_bsd_setgroups`
over the `n` ids at the source buffer yields the host list whose element `i` is `tswap32`
of guest element `i`; the host-to-guest loop of `do_bsd_getgroups` over that host list
(`ret = n`) leaves at the destination buffer the list whose element `i` is `tswap32` of host
element `i`; and that list is exactly the original guest list. -/
theorem id_list_conversion_roundtrip (env : Env) (w wd : World) (src dst : LockedBuf)
    (n : Nat) :
    (setgroups_loop env src n 0 (g_try_new n, w)).1
        = (read_ids env.host_big_endian w.mem src.guest_addr n).map (tswap32 env)
      ∧ read_ids env.host_big_endian
          (getgroups_loop env (setgroups_loop env src n 0 (g_try_new n, w)).1 dst n 0 wd).mem
          dst.guest_addr n
        = (setgroups_loop env src n 0 (g_try_new n, w)).1.map (tswap32 env)
      ∧ read_ids env.host_big_endian
          (getgroups_loop env (setgroups_loop env src n 0 (g_try_new n, w)).1 dst n 0 wd).mem
          dst.guest_addr n
        = read_ids env.host_big_endian w.mem src.guest_addr n := by
  have key : ∀ j, j < n →
      tswap32 env (((read_ids env.host_big_endian w.mem src.guest_addr n).map
        (tswap32 env)).getD j 0) % 4294967296
      = tswap32 env (tswap32 env (ldl_p env.host_big_endian w.mem
          (src.guest_addr + sizeof_uint32 * (j : Int)))) := by
    intro j hj
    have hlt := tswap32_lt env _ (tswap32_lt env _ (ldl_lt env.host_big_endian w.mem
      (src.guest_addr + sizeof_uint32 * (j : Int))))
    simp [read_ids, List.getD_eq_getElem?_getD, range_getElem_lt n j hj, Nat.mod_eq_of_lt hlt]
  refine ⟨setgroups_loop_list env w src n, ?_, ?_⟩
  · rw [getgroups_loop_list, setgroups_loop_list]
    apply List.ext_getElem?
    intro j
    by_cases hj : j < n
    · rw [List.getElem?_map, List.getElem?_map, range_getElem_lt n j hj]
      simp only [Option.map_some']
      rw [key j hj]
      simp [read_ids, range_getElem_lt n j hj]
    · have hj2 : n ≤ j := by omega
      simp [read_ids, range_getElem_ge n j hj2]
  · rw [getgroups_loop_list, setgroups_loop_list]
    unfold read_ids
    apply List.map_congr_left
    intro j hj
    have hj2 : j < n := List.mem_range.mp hj
    have h := key j hj2
    unfold read_ids at h
    rw [h, tswap32_tswap32 env _ (ldl_lt _ _ _)]

end BsdProc
